import Mathlib

/-!
Shallow embedding of the per-layer filtering mechanism of
`src/tracing-subscriber/src/filter/mod.rs`: the `FilterId` identity type,
the `FilterMap` 64-bit enabled-state bitmask, and the `Filtered` wrapper's
`Layer` callbacks.  Machine integers (`u64`, `u8`) are modelled as `Nat`
(the bitmask operations never overflow for identities in `[1, 64]`, and
Rust's `u64` complement is written out as an explicit xor against
`2 ^ 64 - 1`).  The thread-local `FILTERING` cell is modelled as an
explicit `FilterMap` argument threaded through each callback, and a
callback's forwarding to the downstream layer is modelled as the
`Option` of the arguments it would pass on.
-/

namespace Tracing

/-- Rust `FilterId(NonZeroU8)`: a filter's identity.  The `NonZeroU8`
invariant (`1 ≤ get`) is carried as a hypothesis in the theorems that
need it; `get` names the value accessed by `idx.get()` in the source. -/
structure FilterId where
  get : Nat
deriving DecidableEq

/-- Rust `FilterId::new(id: u8)`: `NonZeroU8::new(id).expect("filter IDs may
not be 0")` panics on `0`; the panic is modelled as `none`. -/
def FilterId.new (id : Nat) : Option FilterId :=
  if id = 0 then none else some ⟨id⟩

/-- Rust `FilterMap { bits: u64 }`: the enabled-state bitmask.  `bits` holds
the `u64` value as a `Nat`. -/
structure FilterMap where
  bits : Nat
deriving DecidableEq

/-- Rust `FilterMap::default()` (derived `Default`): all bits zero. -/
def FilterMap.default : FilterMap := ⟨0⟩

/-- Condition of the `debug_assert!(idx < 64)` shared by `FilterMap::set`
and `FilterMap::is_enabled`, on the zero-based index `idx = idx.get() - 1`. -/
def FilterMap.idx_assert (f : FilterId) : Prop := f.get - 1 < 64

/-- Rust `FilterMap::set(self, FilterId(idx), enabled)`: clear (when
`enabled`) or set (when disabled) the bit at `idx.get() - 1`.  Rust's
`!(1 << idx)` is the `u64` complement, i.e. `(2 ^ 64 - 1) ^^^ (1 <<< idx)`
for in-range shifts. -/
def FilterMap.set (self : FilterMap) (f : FilterId) (enabled : Bool) : FilterMap :=
  let idx := f.get - 1
  if enabled then
    ⟨self.bits &&& ((2 ^ 64 - 1) ^^^ (1 <<< idx))⟩
  else
    ⟨self.bits ||| (1 <<< idx)⟩

/-- Rust `FilterMap::is_enabled(&self, FilterId(idx))`: true iff the bit at
`idx.get() - 1` is clear. -/
def FilterMap.is_enabled (self : FilterMap) (f : FilterId) : Bool :=
  self.bits &&& (1 <<< (f.get - 1)) == 0

/-- Reading the bitmask is reading one bit: `is_enabled` is the negation of
`testBit` at the zero-based index. -/
theorem FilterMap.is_enabled_iff_testBit (m : FilterMap) (f : FilterId) :
    m.is_enabled f = !(m.bits.testBit (f.get - 1)) := by
  unfold FilterMap.is_enabled
  rw [Nat.one_shiftLeft, Nat.and_two_pow]
  cases h : m.bits.testBit (f.get - 1) <;> simp [h]

/-- After `set f b`, the bit at `f`'s own index is clear exactly when
`b = true`. -/
theorem FilterMap.testBit_set_self (m : FilterMap) (f : FilterId) (b : Bool)
    (h : f.get - 1 < 64) :
    (m.set f b).bits.testBit (f.get - 1) = !b := by
  cases b
  · show (m.bits ||| (1 <<< (f.get - 1))).testBit (f.get - 1) = true
    rw [Nat.one_shiftLeft, Nat.testBit_or, Nat.testBit_two_pow]
    simp
  · show (m.bits &&& ((2 ^ 64 - 1) ^^^ (1 <<< (f.get - 1)))).testBit (f.get - 1) = false
    rw [Nat.one_shiftLeft, Nat.testBit_and, Nat.testBit_xor,
      Nat.testBit_two_pow_sub_one, Nat.testBit_two_pow]
    simp [h]

/-- `set` leaves every bit other than `f`'s own index untouched (for indices
inside the 64-bit word). -/
theorem FilterMap.testBit_set_other (m : FilterMap) (f : FilterId) (b : Bool)
    (j : Nat) (hj : j < 64) (hne : j ≠ f.get - 1) :
    (m.set f b).bits.testBit j = m.bits.testBit j := by
  cases b
  · show (m.bits ||| (1 <<< (f.get - 1))).testBit j = m.bits.testBit j
    rw [Nat.one_shiftLeft, Nat.testBit_or, Nat.testBit_two_pow]
    simp [Ne.symm hne]
  · show (m.bits &&& ((2 ^ 64 - 1) ^^^ (1 <<< (f.get - 1)))).testBit j = m.bits.testBit j
    rw [Nat.one_shiftLeft, Nat.testBit_and, Nat.testBit_xor,
      Nat.testBit_two_pow_sub_one, Nat.testBit_two_pow]
    simp [hj, Ne.symm hne]

/-- Round trip at the written identity, as a statement on `is_enabled`. -/
theorem FilterMap.is_enabled_set_self (m : FilterMap) (f : FilterId) (b : Bool)
    (h : f.get - 1 < 64) : (m.set f b).is_enabled f = b := by
  rw [FilterMap.is_enabled_iff_testBit, FilterMap.testBit_set_self m f b h,
    Bool.not_not]

/-- Frame property at every other identity, as a statement on `is_enabled`. -/
theorem FilterMap.is_enabled_set_other (m : FilterMap) (i j : FilterId) (b : Bool)
    (hj : j.get - 1 < 64) (hne : j.get - 1 ≠ i.get - 1) :
    (m.set i b).is_enabled j = m.is_enabled j := by
  rw [FilterMap.is_enabled_iff_testBit, FilterMap.is_enabled_iff_testBit,
    FilterMap.testBit_set_other m i b _ hj hne]

/-- C1: for every bitmask `m`, identity `i` in `[1, 64]` and boolean `b`,
`(m.set i b).is_enabled i` returns exactly `b`, and for every other identity
`j` in `[1, 64]` with `j ≠ i`, `(m.set i b).is_enabled j` equals
`m.is_enabled j` (all other bits unchanged). -/
theorem set_is_enabled_round_trip (m : FilterMap) (i : FilterId) (b : Bool)
    (hi1 : 1 ≤ i.get) (hi64 : i.get ≤ 64) :
    (m.set i b).is_enabled i = b ∧
      ∀ j : FilterId, 1 ≤ j.get → j.get ≤ 64 → j.get ≠ i.get →
        (m.set i b).is_enabled j = m.is_enabled j := by
  constructor
  · exact FilterMap.is_enabled_set_self m i b (by omega)
  · intro j hj1 hj64 hne
    exact FilterMap.is_enabled_set_other m i j b (by omega) (by omega)

/-- Witness for C1 at `m = default`, `i = 3`, `b = false`, `j = 5`. -/
theorem set_is_enabled_round_trip_witness :
    (FilterMap.default.set ⟨3⟩ false).is_enabled ⟨3⟩ = false ∧
      (FilterMap.default.set ⟨3⟩ false).is_enabled ⟨5⟩ =
        FilterMap.default.is_enabled ⟨5⟩ :=
  ⟨(set_is_enabled_round_trip FilterMap.default ⟨3⟩ false (by decide) (by decide)).1,
   (set_is_enabled_round_trip FilterMap.default ⟨3⟩ false (by decide) (by decide)).2
     ⟨5⟩ (by decide) (by decide) (by decide)⟩

/-- C5: for a freshly constructed (default) bitmask and every identity `i` in
`[1, 64]`, `is_enabled i` returns true before any `set` call (all-zero bits
means every identity reads as enabled). -/
theorem default_is_enabled (i : FilterId) (h1 : 1 ≤ i.get) (h64 : i.get ≤ 64) :
    FilterMap.default.is_enabled i = true := by
  simp [FilterMap.default, FilterMap.is_enabled]

/-- Witness for C5 at `i = 64`. -/
theorem default_is_enabled_witness : FilterMap.default.is_enabled ⟨64⟩ = true :=
  default_is_enabled ⟨64⟩ (by decide) (by decide)

/-- C9: constructing a `FilterId` from 0 fails (`new 0` is rejected), and for
every identity `i` in `[1, 64]` the debug-checked condition `idx < 64` on the
zero-based index holds and the bit shift `1 <<< idx` stays inside `u64`. -/
theorem filter_id_contract (i : FilterId) (h1 : 1 ≤ i.get) (h64 : i.get ≤ 64) :
    FilterId.new 0 = none ∧ FilterMap.idx_assert i ∧ 1 <<< (i.get - 1) < 2 ^ 64 := by
  refine ⟨rfl, by unfold FilterMap.idx_assert; omega, ?_⟩
  rw [Nat.one_shiftLeft]
  exact Nat.pow_lt_pow_right (by omega) (by omega)

/-- Witness for C9 at `i = 64`. -/
theorem filter_id_contract_witness :
    FilterId.new 0 = none ∧ FilterMap.idx_assert ⟨64⟩ ∧ 1 <<< 63 < 2 ^ 64 :=
  filter_id_contract ⟨64⟩ (by decide) (by decide)

/-- Rust `span::Id` (from `tracing-core`): an opaque span identifier. -/
structure SpanId where
  id : Nat
deriving DecidableEq

/-- Rust `tracing_core::subscriber::Interest`: a callsite registration
verdict. -/
inductive Interest where
  | never
  | sometimes
  | always
deriving DecidableEq

/-- Modelled from the spec: the collaborator `layer::Context`, which is
repository code not under `src/`.  Per the interface in the spec, the
persisted per-span storage `load(span_identity, wrapper_identity) ->
bool | absent` is the `store` field, and `scope_context(wrapper_identity)`
restricts the context view to one wrapper's identity, modelled by the
`filt` marker field. -/
structure Context where
  store : SpanId → FilterId → Option Bool
  filt : Option FilterId

/-- Modelled from the spec: `Context::with_filter` (not under `src/`), the
`scope_context(wrapper_identity)` operation producing a context view scoped
to this wrapper's identity. -/
def Context.with_filter (cx : Context) (f : FilterId) : Context :=
  ⟨cx.store, some f⟩

/-- Modelled from the spec: `Context::is_enabled_for` (not under `src/`):
the persisted `load`, fail closed — a missing persisted slot is treated as
not enabled by that wrapper. -/
def Context.is_enabled_for (cx : Context) (span : SpanId) (f : FilterId) : Bool :=
  (cx.store span f).getD false

/-- Modelled from the spec: `Context::if_enabled_for` (not under `src/`):
`some` of the scoped context when the span is enabled for this wrapper,
`none` otherwise. -/
def Context.if_enabled_for (cx : Context) (span : SpanId) (f : FilterId) :
    Option Context :=
  if cx.is_enabled_for span f then some (cx.with_filter f) else none

/-- Rust `Filtered<L, F>`: a filter capability composed with a downstream
layer and this wrapper's identity.  Metadata, span attributes, events,
record values and the downstream layer are opaque type parameters; the
filter capability's predicate `Filter::enabled` is the function `filter`. -/
structure Filtered (M A E R L : Type) where
  filter : M → Context → Bool
  layer : L
  id : FilterId

/-- Each `Layer` callback of `Filtered` is embedded as a function taking the
thread-local `FILTERING` bitmask explicitly and returning the bitmask it
leaves behind together with the arguments forwarded to the downstream
layer (`none` when the callback is dropped). -/
def Filtered.did_enable {M A E R L : Type} (self : Filtered M A E R L)
    (filtering : FilterMap) : Bool :=
  filtering.is_enabled self.id

/-- Rust `Filtered::register_callsite`: the body is `todo!()`, which panics
for every input; the panic is modelled as `none` — no `Interest` is ever
produced. -/
def Filtered.register_callsite {M A E R L : Type} (self : Filtered M A E R L)
    (metadata : M) : Option Interest :=
  none

/-- Rust `Filtered::enabled`: evaluate the wrapped filter's predicate, record
the verdict into the thread-local bitmask via `set`, and return the
verdict. -/
def Filtered.enabled {M A E R L : Type} (self : Filtered M A E R L)
    (metadata : M) (cx : Context) (filtering : FilterMap) : FilterMap × Bool :=
  let enabled := self.filter metadata cx
  (filtering.set self.id enabled, enabled)

/-- Rust `Filtered::new_span`: forward (with the scoped context) iff
`did_enable()` reads enabled from the thread-local bitmask. -/
def Filtered.new_span {M A E R L : Type} (self : Filtered M A E R L)
    (attrs : A) (id : SpanId) (cx : Context) (filtering : FilterMap) :
    FilterMap × Option (A × SpanId × Context) :=
  (filtering,
    if self.did_enable filtering then some (attrs, id, cx.with_filter self.id)
    else none)

/-- Rust `Filtered::on_record`: forward iff the span is enabled for this
wrapper in the persisted store. -/
def Filtered.on_record {M A E R L : Type} (self : Filtered M A E R L)
    (span : SpanId) (values : R) (cx : Context) (filtering : FilterMap) :
    FilterMap × Option (SpanId × R × Context) :=
  (filtering, (cx.if_enabled_for span self.id).map fun cx2 => (span, values, cx2))

/-- Rust `Filtered::on_follows_from`: forward only if both spans are enabled
by this wrapper. -/
def Filtered.on_follows_from {M A E R L : Type} (self : Filtered M A E R L)
    (span follows : SpanId) (cx : Context) (filtering : FilterMap) :
    FilterMap × Option (SpanId × SpanId × Context) :=
  (filtering,
    if cx.is_enabled_for span self.id && cx.is_enabled_for follows self.id then
      some (span, follows, cx.with_filter self.id)
    else none)

/-- Rust `Filtered::on_event`: forward (with the scoped context) iff
`did_enable()` reads enabled from the thread-local bitmask. -/
def Filtered.on_event {M A E R L : Type} (self : Filtered M A E R L)
    (event : E) (cx : Context) (filtering : FilterMap) :
    FilterMap × Option (E × Context) :=
  (filtering,
    if self.did_enable filtering then some (event, cx.with_filter self.id)
    else none)

/-- Rust `Filtered::on_enter`. -/
def Filtered.on_enter {M A E R L : Type} (self : Filtered M A E R L)
    (id : SpanId) (cx : Context) (filtering : FilterMap) :
    FilterMap × Option (SpanId × Context) :=
  (filtering, (cx.if_enabled_for id self.id).map fun cx2 => (id, cx2))

/-- Rust `Filtered::on_exit`. -/
def Filtered.on_exit {M A E R L : Type} (self : Filtered M A E R L)
    (id : SpanId) (cx : Context) (filtering : FilterMap) :
    FilterMap × Option (SpanId × Context) :=
  (filtering, (cx.if_enabled_for id self.id).map fun cx2 => (id, cx2))

/-- Rust `Filtered::on_close`. -/
def Filtered.on_close {M A E R L : Type} (self : Filtered M A E R L)
    (id : SpanId) (cx : Context) (filtering : FilterMap) :
    FilterMap × Option (SpanId × Context) :=
  (filtering, (cx.if_enabled_for id self.id).map fun cx2 => (id, cx2))

/-- Rust `Filtered::on_id_change`: the enabled check is on the old span id. -/
def Filtered.on_id_change {M A E R L : Type} (self : Filtered M A E R L)
    (old new : SpanId) (cx : Context) (filtering : FilterMap) :
    FilterMap × Option (SpanId × SpanId × Context) :=
  (filtering, (cx.if_enabled_for old self.id).map fun cx2 => (old, new, cx2))

/-- A concrete context whose persisted store holds no verdict for any span. -/
def emptyCx : Context := ⟨fun _ _ => none, none⟩

/-- A concrete wrapper with identity 1 and a constantly true predicate, over
`Nat` metadata, attributes, events, records, and downstream layer. -/
def sampleFiltered : Filtered Nat Nat Nat Nat Nat :=
  ⟨fun _ _ => true, 0, ⟨1⟩⟩

/-- The span-creation forwarding decision as the claim states it: consult the
span's persisted verdict in the collaborator's storage (fail closed), not
the thread-local slot.  This follows the claim's words, for comparison with
`Filtered.new_span` as translated from the source. -/
def new_span_forwards_per_claim (cx : Context) (id : SpanId) (f : FilterId) :
    Bool :=
  cx.is_enabled_for id f

/-- C2 counterexample: with an empty persisted store (the span's verdict is
absent, so per the claim the span-creation callback would treat it as not
enabled and drop) and a default thread-local bitmask (which reads enabled),
the code's `new_span` does forward: it consults the thread-local slot via
`did_enable`, not the persisted per-span verdict. -/
theorem new_span_ignores_persisted_counterexample :
    (sampleFiltered.new_span 0 ⟨1⟩ emptyCx FilterMap.default).2.isSome = true ∧
      new_span_forwards_per_claim emptyCx ⟨1⟩ sampleFiltered.id = false :=
  ⟨rfl, rfl⟩

/-- C2 (amended): the predicate-evaluation callback records the verdict into
the thread-local bitmask (the wrapper itself writes no per-span persistent
storage), and the span-creation callback consults the thread-local slot via
`did_enable` — its forwarding decision equals the thread-local read and is
unchanged under any replacement of the persisted store. -/
theorem new_span_consults_thread_local {M A E R L : Type}
    (self : Filtered M A E R L) (attrs : A) (id : SpanId) (metadata : M)
    (cx : Context) (filtering : FilterMap) :
    ((self.new_span attrs id cx filtering).2.isSome = self.did_enable filtering) ∧
      ((self.enabled metadata cx filtering).1 =
        filtering.set self.id (self.filter metadata cx)) ∧
      ∀ store2 : SpanId → FilterId → Option Bool,
        (self.new_span attrs id ⟨store2, cx.filt⟩ filtering).2.isSome =
          (self.new_span attrs id cx filtering).2.isSome := by
  refine ⟨?_, rfl, ?_⟩
  · unfold Filtered.new_span
    cases h : self.did_enable filtering <;> simp [h]
  · intro store2
    unfold Filtered.new_span
    cases h : self.did_enable filtering <;> simp [h]

/-- C3: `enabled` returns exactly the wrapped filter capability's predicate
verdict on the given metadata and context and, within the same callback,
updates the thread-local bitmask via `set(self.id, verdict)`. -/
theorem enabled_records_verdict {M A E R L : Type} (self : Filtered M A E R L)
    (metadata : M) (cx : Context) (filtering : FilterMap) :
    (self.enabled metadata cx filtering).2 = self.filter metadata cx ∧
      (self.enabled metadata cx filtering).1 =
        filtering.set self.id (self.filter metadata cx) :=
  ⟨rfl, rfl⟩

/-- C4: `on_event` forwards to the downstream layer iff the thread-local
bitmask reads enabled for this wrapper's identity; when it forwards, the
context passed downstream is `cx.with_filter self.id`; when disabled, the
event is dropped silently (`none`). -/
theorem on_event_forwards_iff_enabled {M A E R L : Type}
    (self : Filtered M A E R L) (event : E) (cx : Context)
    (filtering : FilterMap) :
    ((self.on_event event cx filtering).2.isSome =
        filtering.is_enabled self.id) ∧
      (filtering.is_enabled self.id = true →
        (self.on_event event cx filtering).2 =
          some (event, cx.with_filter self.id)) ∧
      (filtering.is_enabled self.id = false →
        (self.on_event event cx filtering).2 = none) := by
  unfold Filtered.on_event Filtered.did_enable
  cases h : filtering.is_enabled self.id <;> simp [h]

/-- Witness for C4: with a default bitmask (identity 1 enabled) the event is
forwarded with the scoped context. -/
theorem on_event_forwards_iff_enabled_witness :
    (sampleFiltered.on_event 7 emptyCx FilterMap.default).2 =
      some (7, emptyCx.with_filter ⟨1⟩) :=
  (on_event_forwards_iff_enabled sampleFiltered 7 emptyCx
    FilterMap.default).2.1 (by decide)

/-- C6 counterexample: thread-local state left behind by a previous event
(identity 2 disabled) persists across a new event's predicate evaluation by
the wrapper with identity 1: the slot is merged into, not overwritten, so a
leftover verdict bit survives. -/
theorem filtering_merged_counterexample :
    ((sampleFiltered.enabled 0 emptyCx (FilterMap.default.set ⟨2⟩ false)).1).is_enabled
        ⟨2⟩ = false := by
  decide

/-- C6 (amended): the predicate-evaluation callback merges into the
thread-local bitmask rather than overwriting it: it updates only this
wrapper's own bit via `set`, and the bit of every other identity in
`[1, 64]` — including verdicts left over from previously processed events —
persists unchanged. -/
theorem enabled_updates_only_own_bit {M A E R L : Type}
    (self : Filtered M A E R L) (metadata : M) (cx : Context)
    (filtering : FilterMap) (j : FilterId) (hj1 : 1 ≤ j.get)
    (hj64 : j.get ≤ 64) (hne : j.get ≠ self.id.get) (hs1 : 1 ≤ self.id.get) :
    ((self.enabled metadata cx filtering).1).is_enabled j =
      filtering.is_enabled j := by
  exact FilterMap.is_enabled_set_other filtering self.id j _ (by omega) (by omega)

/-- Witness for C6 (amended): identity 2's leftover disabled bit is preserved
by identity 1's evaluation. -/
theorem enabled_updates_only_own_bit_witness :
    ((sampleFiltered.enabled 0 emptyCx (FilterMap.default.set ⟨2⟩ false)).1).is_enabled
        ⟨2⟩ = (FilterMap.default.set ⟨2⟩ false).is_enabled ⟨2⟩ :=
  enabled_updates_only_own_bit sampleFiltered 0 emptyCx
    (FilterMap.default.set ⟨2⟩ false) ⟨2⟩ (by decide) (by decide) (by decide)
    (by decide)

/-- C7: `on_follows_from` forwards to the downstream layer iff both
referenced spans are enabled for this wrapper's identity in the persisted
store; if either is disabled — in particular when its persisted verdict is
absent — the callback is dropped. -/
theorem on_follows_from_and_semantics {M A E R L : Type}
    (self : Filtered M A E R L) (span follows : SpanId) (cx : Context)
    (filtering : FilterMap) :
    ((self.on_follows_from span follows cx filtering).2.isSome = true ↔
        cx.is_enabled_for span self.id = true ∧
          cx.is_enabled_for follows self.id = true) ∧
      ((cx.is_enabled_for span self.id = false ∨
          cx.is_enabled_for follows self.id = false ∨
          cx.store span self.id = none ∨ cx.store follows self.id = none) →
        (self.on_follows_from span follows cx filtering).2 = none) := by
  constructor
  · unfold Filtered.on_follows_from
    cases h1 : cx.is_enabled_for span self.id <;>
      cases h2 : cx.is_enabled_for follows self.id <;> simp [h1, h2]
  · intro h
    have h3 : cx.is_enabled_for span self.id = false ∨
        cx.is_enabled_for follows self.id = false := by
      rcases h with h | h | h | h
      · exact Or.inl h
      · exact Or.inr h
      · exact Or.inl (by simp [Context.is_enabled_for, h])
      · exact Or.inr (by simp [Context.is_enabled_for, h])
    unfold Filtered.on_follows_from
    rcases h3 with h3 | h3 <;> simp [h3]

/-- Witness for C7: both spans' verdicts are absent in the empty store, so
linking is dropped. -/
theorem on_follows_from_and_semantics_witness :
    (sampleFiltered.on_follows_from ⟨1⟩ ⟨2⟩ emptyCx FilterMap.default).2 = none :=
  (on_follows_from_and_semantics sampleFiltered ⟨1⟩ ⟨2⟩ emptyCx
    FilterMap.default).2 (Or.inl (by decide))

/-- C8: the code violates the claim — `register_callsite` is `todo!()` in the
source and panics for every callsite metadata (modelled as `none`); it never
completes normally with an `Interest` forwarded per the enabled-state
protocol. -/
theorem register_callsite_panics {M A E R L : Type} (self : Filtered M A E R L)
    (metadata : M) : self.register_callsite metadata = none :=
  rfl

/-- C10: every lifecycle callback except the predicate evaluation leaves the
thread-local bitmask unchanged (`did_enable` only reads it), so a sequence
of non-predicate callbacks preserves the thread's verdict state. -/
theorem non_predicate_callbacks_preserve_filtering {M A E R L : Type}
    (self : Filtered M A E R L) (attrs : A) (id old new : SpanId) (values : R)
    (event : E) (cx : Context) (filtering : FilterMap) :
    (self.new_span attrs id cx filtering).1 = filtering ∧
      (self.on_record id values cx filtering).1 = filtering ∧
      (self.on_follows_from id old cx filtering).1 = filtering ∧
      (self.on_event event cx filtering).1 = filtering ∧
      (self.on_enter id cx filtering).1 = filtering ∧
      (self.on_exit id cx filtering).1 = filtering ∧
      (self.on_close id cx filtering).1 = filtering ∧
      (self.on_id_change old new cx filtering).1 = filtering :=
  ⟨rfl, rfl, rfl, rfl, rfl, rfl, rfl, rfl⟩

end Tracing
